import Mathlib

/-!
Verification of the chat-server core in `src/server.py` (an asyncio IRC-like
chat server with one global channel, direct messages and per-user color
toggling).  The Python source is shallowly embedded: pure string manipulation
becomes Lean functions on `String` / `List Char`, the mutable server state
(`chat_server.users` dictionary, per-connection `User` objects, the sqlite
message log) becomes an explicit `ServerState` record threaded through step
functions, and the `async` write calls become explicit output events.  All
text is modelled at the level of Unicode code points (Python strings and Lean
strings agree there); case folding and the alphanumeric test are modelled for
the ASCII range, which covers every string the server itself constructs.
-/

namespace ChatSrv

/-- Python `str.lower()` restricted to ASCII, per character (the server only
ever folds nicknames, which are ASCII).  Mirrors `nick.lower()` calls. -/
def pyLower (s : String) : String := String.mk (s.data.map Char.toLower)

/-- Python `str.strip()`: drop leading and trailing whitespace. -/
def pyStrip (s : String) : String :=
  String.mk (((s.data.dropWhile Char.isWhitespace).reverse.dropWhile Char.isWhitespace).reverse)

/-- First whitespace-delimited token of a string, as in `args.split()[0]`. -/
def firstToken (s : String) : List Char :=
  (s.data.dropWhile Char.isWhitespace).takeWhile (fun c => !c.isWhitespace)

/-- Python `line.strip().split(maxsplit=1)` on an already stripped string:
returns the first whitespace token and the remainder after the separating
whitespace run. -/
def splitOnce (s : List Char) : List Char × List Char :=
  (s.takeWhile (fun c => !c.isWhitespace),
   (s.dropWhile (fun c => !c.isWhitespace)).dropWhile Char.isWhitespace)

/-- Python `args.split(" ", 1)` for a string known to contain a space:
the part before the first literal space and everything after it. -/
def splitSpace1 (s : List Char) : List Char × List Char :=
  (s.takeWhile (fun c => c != ' '), (s.dropWhile (fun c => c != ' ')).drop 1)

/-- Python `s.isdigit()` over ASCII: nonempty and all decimal digits. -/
def pyIsDigit (s : String) : Bool := !s.data.isEmpty && s.data.all Char.isDigit

/-- Python `s.isalnum()` over ASCII: nonempty and all alphanumeric. -/
def pyIsAlnum (s : List Char) : Bool := !s.isEmpty && s.all Char.isAlphanum

/-- Value of a digit string, as `int(args)` computes it on `isdigit` input. -/
def digitsToNat (s : String) : Nat :=
  s.data.foldl (fun n c => n * 10 + (c.toNat - 48)) 0

/-! ## The registry dictionary

`chat_server.users` is a Python `dict` from lower-cased nickname to the
`User` object; we model it as an association list from key to a session
identifier, with `dict` update semantics (assignment replaces in place,
new keys are appended in insertion order). -/

/-- Python `d[k] = v`: replace the entry in place if the key is present,
otherwise append it. -/
def setKey (k : String) (v : Nat) : List (String × Nat) → List (String × Nat)
  | [] => [(k, v)]
  | p :: m => if p.1 = k then (k, v) :: m else p :: setKey k v m

/-- Python `d.pop(k, None)` / guarded `del d[k]`: remove the entry with the
given key if present, a no-op otherwise. -/
def popKey (k : String) (m : List (String × Nat)) : List (String × Nat) :=
  m.filter (fun p => p.1 ≠ k)

/-- Python `k in d`. -/
def hasKey (k : String) (m : List (String × Nat)) : Bool :=
  m.any (fun p => p.1 = k)

/-- Python `d[k]` as an option. -/
def lookupKey (k : String) (m : List (String × Nat)) : Option Nat :=
  (m.find? (fun p => p.1 = k)).map (fun p => p.2)

/-! ## Delivery engine (`ChatServer.broadcast`, `ChatServer.send_to`,
`ChatServer.apply_color`, src/server.py lines 61-94)

For delivery the observable per-recipient state is the color flag and
whether the recipient's channel currently accepts writes; the `try/except
pass` around each write swallows a failing write. -/

/-- Recipient-side view of a `User` for the delivery engine: `colors_enabled`
is the color flag, `writeOk` models whether `writer.write`/`drain`
succeeds (False = the channel raises, caught by the bare `except`). -/
structure RUser where
  colors_enabled : Bool
  writeOk : Bool
deriving DecidableEq, Repr

/-- ANSI escape strings from the `COLORS` table. -/
def colGreen : List Char := ("\x1b[32m").data
def colReset : List Char := ("\x1b[0m").data
def colYellow : List Char := ("\x1b[33m").data
def colCyan : List Char := ("\x1b[36m").data
def colPurple : List Char := ("\x1b[35m").data

/-- Python `s.replace(pat, repl)` for a one-character pattern: single
left-to-right pass, replacements are not rescanned. -/
def replaceChar (c : Char) (r : List Char) : List Char → List Char
  | [] => []
  | x :: xs => if x = c then r ++ replaceChar c r xs else x :: replaceChar c r xs

/-- The chain of six `str.replace` calls of `apply_color` when colors are
enabled, in the source order: `<`, `>`, `[`, `]`, `→`, `←`. -/
def colorChain (s : List Char) : List Char :=
  replaceChar '←' (colPurple ++ ['←'] ++ colReset)
    (replaceChar '→' (colCyan ++ ['→'] ++ colReset)
      (replaceChar ']' (']' :: colReset)
        (replaceChar '[' (colYellow ++ ['['])
          (replaceChar '>' ('>' :: colReset)
            (replaceChar '<' (colGreen ++ ['<']) s)))))

/-- `ChatServer.apply_color` (lines 87-94): identity when the user's color
flag is off, otherwise the six-replacement chain. -/
def apply_color (u : RUser) (text : String) : String :=
  if !u.colors_enabled then text else String.mk (colorChain text.data)

/-- Generic sequential application of one-character substitutions, used to
compare different application orders of the same substitution set. -/
def applySubs (subs : List (Char × List Char)) (s : List Char) : List Char :=
  subs.foldl (fun acc p => replaceChar p.1 p.2 acc) s

/-- The substitution set of `apply_color`, in the order the source applies
it. -/
def colorSubs : List (Char × List Char) :=
  [('<', colGreen ++ ['<']), ('>', '>' :: colReset),
   ('[', colYellow ++ ['[']), (']', ']' :: colReset),
   ('→', colCyan ++ ['→'] ++ colReset), ('←', colPurple ++ ['←'] ++ colReset)]

/-- `ChatServer.broadcast` (lines 65-74): iterate over a snapshot of the
users dict, skip the entry whose key equals the lower-cased `skip_nick`
when `skip_nick` is truthy (not `None` and not the empty string), apply
per-recipient coloring and write; a failing write is swallowed and the
loop continues.  The result is the list of successful writes
`(key, rendered text)` in iteration order; the users map itself is never
modified by the loop. -/
def broadcast (users : List (String × RUser)) (message : String)
    (skip_nick : Option String) : List (String × String) :=
  users.filterMap (fun p =>
    if (match skip_nick with
        | none => false
        | some s => !(s = "") && (p.1 = pyLower s)) then none
    else if p.2.writeOk then some (p.1, apply_color p.2 message) else none)

/-- Result of `ChatServer.send_to` (lines 76-85): `ret` is the Python
return value of the coroutine — the function body has no `return`
statement, so it is always `None`, modelled as `none`; `writes` is the
list of successful writes it performed. -/
structure SendToResult where
  ret : Option Bool
  writes : List (String × String)
deriving DecidableEq, Repr

/-- `ChatServer.send_to` (lines 76-85): look up the lower-cased nick; if
absent do nothing; if present render and write, swallowing a write error.
No path returns a value. -/
def send_to (users : List (String × RUser)) (nick : String) (message : String) :
    SendToResult :=
  match lookupRUser (pyLower nick) users with
  | none => ⟨none, []⟩
  | some u => ⟨none, if u.writeOk then [(pyLower nick, apply_color u message)] else []⟩
where
  /-- Python `self.users[nick_lower]` guarded by `nick_lower in self.users`. -/
  lookupRUser (k : String) (m : List (String × RUser)) : Option RUser :=
    (m.find? (fun p => p.1 = k)).map (fun p => p.2)

/-! ## Server state (`User` objects, `chat_server.users`, the messages table)

A connected client is a `Session` (the mutable fields of the Python `User`
object), identified across the state by a numeric session id standing for
the object's identity.  `ServerState.users` is the registry dictionary,
`ServerState.sessions` the set of live connections (`handle_client`
coroutines), `ServerState.history` the sqlite `messages` table in `id`
(insertion) order.  External time enters as an explicit timestamp string in
the sqlite `CURRENT_TIMESTAMP` shape `YYYY-MM-DD HH:MM:SS`; the `%H:%M`
display stamp is its `[11:16]` slice, as the history renderer also
computes. -/

/-- Mutable fields of the Python `User` object (lines 55-59). -/
structure Session where
  nick : String
  colors_enabled : Bool
deriving DecidableEq, Repr

/-- One row of the sqlite `messages` table. -/
structure Msg where
  from_nick : String
  to_nick : Option String
  message : String
  timestamp : String
deriving DecidableEq, Repr

/-- The whole server-side state touched by the handlers. -/
structure ServerState where
  users : List (String × Nat)
  sessions : List (Nat × Session)
  history : List Msg
deriving DecidableEq, Repr

/-- An output action of a handler: `direct sid t` is `send_msg` of `t` to
that session's writer (the wire line is `:` ++ t ++ CRLF), `chanBroadcast`
is a call to `chat_server.broadcast`, `chanSend` a call to
`chat_server.send_to`. -/
inductive OutEvent where
  | direct (sid : Nat) (text : String)
  | chanBroadcast (text : String) (skip : Option String)
  | chanSend (nick : String) (text : String)
deriving DecidableEq, Repr

/-- Python `datetime.now().strftime("%H:%M")`, expressed as the `[11:16]`
slice of the full `YYYY-MM-DD HH:MM:SS` timestamp of the same instant. -/
def tsHM (ts : String) : String := String.mk ((ts.data.drop 11).take 5)

/-- Session lookup by identity (the dereference of a `User` object). -/
def findSession (sid : Nat) (l : List (Nat × Session)) : Option Session :=
  (l.find? (fun q => q.1 = sid)).map (fun q => q.2)

/-- In-place mutation of one `User` object's `nick` field. -/
def setNick (l : List (Nat × Session)) (sid : Nat) (n : String) :
    List (Nat × Session) :=
  l.map (fun q => if q.1 = sid then (q.1, { q.2 with nick := n }) else q)

/-- In-place mutation of one `User` object's `colors_enabled` field. -/
def setColors (l : List (Nat × Session)) (sid : Nat) (b : Bool) :
    List (Nat × Session) :=
  l.map (fun q => if q.1 = sid then (q.1, { q.2 with colors_enabled := b }) else q)

/-! ## Command handlers (`handle_command`, src/server.py lines 100-206) -/

/-- The rejection test of line 123: `not newnick.isalnum() and "_" not in
newnick and "-" not in newnick`.  Note the conditions are conjoined, so a
non-alphanumeric name already passes when it merely contains an underscore
or hyphen anywhere. -/
def nickRejected (n : List Char) : Bool :=
  !pyIsAlnum n && !n.contains '_' && !n.contains '-'

/-- The `/nick` branch (lines 118-137). -/
def nickCmd (st : ServerState) (sid : Nat) (s : Session) (args : String) :
    ServerState × List OutEvent :=
  if args = "" then (st, [.direct sid ("Usage: /nick NewName")])
  else
    let newnick : List Char := (firstToken args).take 24
    if nickRejected newnick then
      (st, [.direct sid ("Nick can contain letters, numbers, _, -")])
    else
      let newLower := pyLower (String.mk newnick)
      if hasKey newLower st.users && decide (newLower ≠ pyLower s.nick) then
        (st, [.direct sid ("Nickname already in use")])
      else
        let users2 := setKey newLower sid (popKey (pyLower s.nick) st.users)
        ({ st with users := users2, sessions := setNick st.sessions sid (String.mk newnick) },
         [.chanBroadcast ("* " ++ s.nick ++ " is now known as " ++ String.mk newnick) none,
          .direct sid ("You are now " ++ String.mk newnick)])

/-- The `/msg` and `/dm` branch (lines 139-159). -/
def msgCmd (st : ServerState) (sid : Nat) (s : Session) (ts args : String) :
    ServerState × List OutEvent :=
  if args = "" || !(args.data.contains ' ') then
    (st, [.direct sid ("Usage: /msg nickname message here")])
  else
    let target := String.mk (splitSpace1 args.data).1
    let msg := String.mk (splitSpace1 args.data).2
    if pyLower target = pyLower s.nick then
      (st, [.direct sid ("Can\x27t message yourself")])
    else if !(hasKey (pyLower target) st.users) then
      (st, [.direct sid (target ++ " is not online")])
    else
      ({ st with history := st.history ++ [⟨s.nick, some target, msg, ts⟩] },
       [.direct sid ("[" ++ tsHM ts ++ "] → " ++ target ++ " " ++ msg),
        .chanSend target ("[" ++ tsHM ts ++ "] ← " ++ s.nick ++ " " ++ msg)])

/-- The history limit (line 163): `min(int(args) if args.strip().isdigit()
else 10, 300)`. -/
def historyLimit (args : String) : Nat :=
  min (if pyIsDigit (pyStrip args) then digitsToNat (pyStrip args) else 10) 300

/-- The public-history query (lines 184-190): `to_nick IS NULL ORDER BY id
DESC LIMIT ?`, then reversed by `[::-1]`. -/
def queryPublic (hist : List Msg) (limit : Nat) : List Msg :=
  ((hist.filter (fun m => m.to_nick = none)).reverse.take limit).reverse

/-- The dm-history query (lines 169-175): `from_nick = ? OR to_nick = ?
ORDER BY id DESC LIMIT ?`, then reversed by `[::-1]`. -/
def queryDM (hist : List Msg) (nick : String) (limit : Nat) : List Msg :=
  ((hist.filter (fun m => m.from_nick = nick || m.to_nick = some nick)).reverse.take
    limit).reverse

/-- Python `args.split()[1]` (the second whitespace-delimited token). -/
def secondToken (s : String) : List Char := firstToken (String.mk (splitOnce s.data).2)

/-- The `/history` branch (lines 161-194). -/
def historyCmd (st : ServerState) (sid : Nat) (s : Session) (args : String) :
    ServerState × List OutEvent :=
  let limit := historyLimit args
  if args.data.contains ' ' && pyLower (String.mk (secondToken args)) = "dm" then
    let rows := queryDM st.history s.nick limit
    (st, .direct sid ("Recent private messages (" ++ toString rows.length ++ "):") ::
      rows.map (fun m =>
        .direct sid ("[" ++ tsHM m.timestamp ++ "] "
          ++ (if m.from_nick = s.nick then "→" else "←") ++ " "
          ++ (if m.from_nick = s.nick then
                match m.to_nick with | some t => t | none => "None"
              else m.from_nick)
          ++ " " ++ m.message)))
  else
    let rows := queryPublic st.history limit
    (st, .direct sid ("Recent public messages (" ++ toString rows.length ++ "):") ::
      rows.map (fun m =>
        .direct sid ("[" ++ tsHM m.timestamp ++ "] <" ++ m.from_nick ++ "> " ++ m.message)))

/-- The `/color` branch (lines 196-204). -/
def colorCmd (st : ServerState) (sid : Nat) (s : Session) (args : String) :
    ServerState × List OutEvent :=
  if pyLower args = "on" then
    ({ st with sessions := setColors st.sessions sid true },
     [.direct sid ("Colored output → enabled")])
  else if pyLower args = "off" then
    ({ st with sessions := setColors st.sessions sid false },
     [.direct sid ("Colored output → disabled")])
  else
    (st, [.direct sid ("Current: " ++ (if s.colors_enabled then "on" else "off")
      ++ "   Usage: /color on|off")])

/-- The `/help` response lines (lines 109-116). -/
def helpLines : List String :=
  ["/nick <name>          → change nickname",
   "/msg <nick> <text>    → send private message",
   "/dm <nick> <text>     → same as /msg",
   "/history [n]          → show last n messages (default 10)",
   "/color on / off       → toggle colored output",
   "/quit                 → disconnect"]

/-- The verb extraction of line 102: `parts[0].lower()[1:] if
parts[0].startswith("/") else ""`. -/
def cmdOf (tok : List Char) : String :=
  if tok.head? = some '/' then String.mk ((tok.map Char.toLower).drop 1) else ""

/-- `handle_command` (lines 100-206): parse `verb`/`args` from the line and
dispatch; a verb outside the six handled ones falls through with no
response and no state change. -/
def handle_command (st : ServerState) (sid : Nat) (s : Session) (ts line : String) :
    ServerState × List OutEvent :=
  let stripped := pyStrip line
  let cmd : String := cmdOf (splitOnce stripped.data).1
  let args : String := String.mk (splitOnce stripped.data).2
  if cmd = "help" then (st, helpLines.map (fun l => .direct sid l))
  else if cmd = "nick" then nickCmd st sid s args
  else if cmd = "msg" || cmd = "dm" then msgCmd st sid s ts args
  else if cmd = "history" then historyCmd st sid s args
  else if cmd = "color" then colorCmd st sid s args
  else (st, [])

/-! ## Session lifecycle (`handle_client`, src/server.py lines 223-276) -/

/-- The fixed banner. -/
def MOTD : List String :=
  ["==============================",
   "  Welcome to Simple Chat     ",
   "  /help    → commands        ",
   "  /color on/off → toggle ansi",
   "=============================="]

/-- Connection setup (lines 223-233): allocate a `User` with nick `Guest`,
assign it into the registry dictionary (replacing any entry already at the
key `guest`), send the welcome lines, broadcast the join notice with no
skip. -/
def connectClient (st : ServerState) (sid : Nat) : ServerState × List OutEvent :=
  let s : Session := ⟨"Guest", false⟩
  ({ st with users := setKey (pyLower s.nick) sid st.users,
             sessions := st.sessions ++ [(sid, s)] },
   ((":server 001 " ++ s.nick ++ " :Welcome!") :: MOTD).map (fun l => .direct sid l)
     ++ [.chanBroadcast ("* " ++ s.nick ++ " has joined the chat") none])

/-- The non-command branch of the read loop (lines 250-265): reject lines
longer than 400 characters with an error to the sender only, otherwise
broadcast the tagged line skipping the sender and append a public history
row. -/
def chatLine (st : ServerState) (sid : Nat) (s : Session) (ts line : String) :
    ServerState × List OutEvent :=
  if line.length > 400 then
    (st, [.direct sid ("Message too long (max ~400 chars)")])
  else
    ({ st with history := st.history ++ [⟨s.nick, none, line, ts⟩] },
     [.chanBroadcast ("[" ++ tsHM ts ++ "] <" ++ s.nick ++ "> " ++ line) (some s.nick)])

/-- Disconnect cleanup (lines 269-276): delete the registry entry at the
session's lower-cased nick if present, drop the session, broadcast the
leave notice. -/
def disconnectClient (st : ServerState) (sid : Nat) (s : Session) :
    ServerState × List OutEvent :=
  ({ st with users := popKey (pyLower s.nick) st.users,
             sessions := st.sessions.filter (fun q => q.1 ≠ sid) },
   [.chanBroadcast ("* " ++ s.nick ++ " has left") none])

/-- External events driving the server: a new connection, one line of input
from a connected client (one iteration of the `for line in ...` loop, with
its strip/empty/command dispatch, lines 241-248), and a disconnect. -/
inductive Event where
  | connect (sid : Nat)
  | line (sid : Nat) (ts raw : String)
  | disconnect (sid : Nat)
deriving DecidableEq, Repr

/-- One step of the server on an event.  Events carrying a session id that
is not connected (or a connect of an already-connected id) do not occur in
the real system and are no-ops here. -/
def step (st : ServerState) (e : Event) : ServerState × List OutEvent :=
  match e with
  | .connect sid =>
    if st.sessions.any (fun q => q.1 = sid) then (st, []) else connectClient st sid
  | .line sid ts raw =>
    match findSession sid st.sessions with
    | none => (st, [])
    | some s =>
      let l := pyStrip raw
      if l = "" then (st, [])
      else if l.data.head? = some '/' then handle_command st sid s ts l
      else chatLine st sid s ts l
  | .disconnect sid =>
    match findSession sid st.sessions with
    | none => (st, [])
    | some s => disconnectClient st sid s

/-- The empty server at startup. -/
def initState : ServerState := ⟨[], [], []⟩

/-- State reached after a trace of events. -/
def runTrace (tr : List Event) : ServerState :=
  tr.foldl (fun st e => (step st e).1) initState

/-! ## Registry invariant

The registry invariant established below: keys are distinct, and every
entry maps a key to a currently-connected session whose case-folded
nickname is that key.  The converse inclusion (every connected session has
an entry) is NOT an invariant of the source: connect-time registration of
a second `Guest` replaces the first entry (see the C1 counterexample). -/

/-- Every registry entry points at a live session and carries its
case-folded nickname as key. -/
def RegMatch (st : ServerState) : Prop :=
  ∀ p ∈ st.users, ∃ q ∈ st.sessions, q.1 = p.2 ∧ p.1 = pyLower q.2.nick

/-- The registry invariant: distinct registry keys, distinct session
identities, and `RegMatch`. -/
def Inv (st : ServerState) : Prop :=
  (st.users.map Prod.fst).Nodup ∧ (st.sessions.map Prod.fst).Nodup ∧ RegMatch st

theorem mem_setKey {p : String × Nat} {k : String} {v : Nat}
    {m : List (String × Nat)} (h : p ∈ setKey k v m) : p = (k, v) ∨ p ∈ m := by
  induction m with
  | nil => simpa [setKey] using h
  | cons q m ih =>
    simp only [setKey] at h
    by_cases hq : q.1 = k
    · rw [if_pos hq] at h
      rcases List.mem_cons.1 h with h | h
      · exact Or.inl h
      · exact Or.inr (List.mem_cons_of_mem _ h)
    · rw [if_neg hq] at h
      rcases List.mem_cons.1 h with h | h
      · exact Or.inr (h ▸ List.mem_cons_self _ _)
      · rcases ih h with h | h
        · exact Or.inl h
        · exact Or.inr (List.mem_cons_of_mem _ h)

theorem keys_setKey (k : String) (v : Nat) (m : List (String × Nat)) :
    (setKey k v m).map Prod.fst =
      if k ∈ m.map Prod.fst then m.map Prod.fst else m.map Prod.fst ++ [k] := by
  induction m with
  | nil => simp [setKey]
  | cons q m ih =>
    simp only [setKey]
    by_cases hq : q.1 = k
    · simp [hq]
    · by_cases hk : k ∈ m.map Prod.fst <;>
        simp [hq, hk, ih, Ne.symm hq]

theorem keys_setKey_nodup {k : String} {v : Nat} {m : List (String × Nat)}
    (h : (m.map Prod.fst).Nodup) : ((setKey k v m).map Prod.fst).Nodup := by
  rw [keys_setKey]
  by_cases hk : k ∈ m.map Prod.fst
  · simpa [hk]
  · simp only [hk, if_false]
    exact (List.nodup_append.2 ⟨h, List.nodup_singleton _, by
      simpa [List.disjoint_singleton] using hk⟩)

theorem mem_popKey {p : String × Nat} {k : String} {m : List (String × Nat)} :
    p ∈ popKey k m ↔ p ∈ m ∧ p.1 ≠ k := by
  simp [popKey, List.mem_filter]

theorem keys_popKey_nodup {k : String} {m : List (String × Nat)}
    (h : (m.map Prod.fst).Nodup) : ((popKey k m).map Prod.fst).Nodup :=
  List.Nodup.sublist ((List.filter_sublist m).map Prod.fst) h

theorem keys_setNick (l : List (Nat × Session)) (sid : Nat) (n : String) :
    (setNick l sid n).map Prod.fst = l.map Prod.fst := by
  induction l with
  | nil => rfl
  | cons q l ih =>
    simp only [setNick, List.map_cons] at *
    split <;> simp [ih]

theorem keys_setColors (l : List (Nat × Session)) (sid : Nat) (b : Bool) :
    (setColors l sid b).map Prod.fst = l.map Prod.fst := by
  induction l with
  | nil => rfl
  | cons q l ih =>
    simp only [setColors, List.map_cons] at *
    split <;> simp [ih]

theorem findSession_mem {sid : Nat} {l : List (Nat × Session)} {s : Session}
    (h : findSession sid l = some s) : (sid, s) ∈ l := by
  unfold findSession at h
  cases hf : l.find? (fun q => q.1 = sid) with
  | none => rw [hf] at h; cases h
  | some q =>
    rw [hf] at h
    have hq : q.1 = sid := by simpa using List.find?_some hf
    have hmem := List.mem_of_find?_eq_some hf
    have h2 : q.2 = s := by simpa using h
    have : q = (sid, s) := by
      cases q; simp_all
    exact this ▸ hmem

theorem nodup_keys_eq {l : List (Nat × Session)} (h : (l.map Prod.fst).Nodup)
    {a : Nat} {b c : Session} (hb : (a, b) ∈ l) (hc : (a, c) ∈ l) : b = c := by
  induction l with
  | nil => cases hb
  | cons q l ih =>
    rw [List.map_cons, List.nodup_cons] at h
    rcases List.mem_cons.1 hb with hb1 | hb1
    · rcases List.mem_cons.1 hc with hc1 | hc1
      · exact congrArg Prod.snd (hb1.trans hc1.symm)
      · have ha : q.1 = a := by rw [← hb1]
        exact absurd (by simpa [ha] using List.mem_map_of_mem Prod.fst hc1) h.1
    · rcases List.mem_cons.1 hc with hc1 | hc1
      · have ha : q.1 = a := by rw [← hc1]
        exact absurd (by simpa [ha] using List.mem_map_of_mem Prod.fst hb1) h.1
      · exact ih h.2 hb1 hc1

theorem nickCmd_inv {st : ServerState} {sid : Nat} {s : Session} {args : String}
    (h : Inv st) (hf : findSession sid st.sessions = some s) :
    Inv (nickCmd st sid s args).1 := by
  obtain ⟨hk, hs, hm⟩ := h
  have hmem : (sid, s) ∈ st.sessions := findSession_mem hf
  simp only [nickCmd]
  split
  · exact ⟨hk, hs, hm⟩
  split
  · exact ⟨hk, hs, hm⟩
  split
  · exact ⟨hk, hs, hm⟩
  refine ⟨keys_setKey_nodup (keys_popKey_nodup hk), ?_, ?_⟩
  · rw [keys_setNick]; exact hs
  intro p hp
  rcases mem_setKey hp with hpe | hp2
  · refine ⟨(sid, { s with nick := String.mk ((firstToken args).take 24) }), ?_, ?_, ?_⟩
    · have := List.mem_map_of_mem
        (fun q => if q.1 = sid then
          (q.1, { q.2 with nick := String.mk ((firstToken args).take 24) }) else q) hmem
      simpa [setNick] using this
    · rw [hpe]
    · rw [hpe]
  · obtain ⟨hp3, hpne⟩ := mem_popKey.1 hp2
    obtain ⟨q, hq, h1, h2⟩ := hm p hp3
    have hqsid : q.1 ≠ sid := by
      intro he
      have hq' : (sid, q.2) ∈ st.sessions := by rw [← he]; exact hq
      exact hpne (by rw [h2, nodup_keys_eq hs hq' hmem])
    refine ⟨q, ?_, h1, h2⟩
    have h3 := List.mem_map_of_mem
      (fun q => if q.1 = sid then
        (q.1, { q.2 with nick := String.mk ((firstToken args).take 24) }) else q) hq
    simpa [setNick, hqsid] using h3

theorem colorCmd_inv {st : ServerState} {sid : Nat} {s : Session} {args : String}
    (h : Inv st) : Inv (colorCmd st sid s args).1 := by
  obtain ⟨hk, hs, hm⟩ := h
  have hcase : ∀ b : Bool, Inv { st with sessions := setColors st.sessions sid b } := by
    intro b
    refine ⟨hk, ?_, ?_⟩
    · show ((setColors st.sessions sid b).map Prod.fst).Nodup
      rw [keys_setColors]; exact hs
    intro p hp
    obtain ⟨q, hq, h1, h2⟩ := hm p hp
    refine ⟨(if q.1 = sid then (q.1, { q.2 with colors_enabled := b }) else q), ?_, ?_, ?_⟩
    · exact List.mem_map_of_mem _ hq
    · split <;> simpa using h1
    · split <;> simpa using h2
  simp only [colorCmd]
  split
  · exact hcase true
  split
  · exact hcase false
  · exact ⟨hk, hs, hm⟩

theorem msgCmd_inv {st : ServerState} {sid : Nat} {s : Session} {ts args : String}
    (h : Inv st) : Inv (msgCmd st sid s ts args).1 := by
  obtain ⟨hk, hs, hm⟩ := h
  simp only [msgCmd]
  split
  · exact ⟨hk, hs, hm⟩
  split
  · exact ⟨hk, hs, hm⟩
  split
  · exact ⟨hk, hs, hm⟩
  · exact ⟨hk, hs, hm⟩

theorem historyCmd_inv {st : ServerState} {sid : Nat} {s : Session} {args : String}
    (h : Inv st) : Inv (historyCmd st sid s args).1 := by
  simp only [historyCmd]
  split <;> exact h

theorem handle_command_inv {st : ServerState} {sid : Nat} {s : Session}
    {ts line : String} (h : Inv st) (hf : findSession sid st.sessions = some s) :
    Inv (handle_command st sid s ts line).1 := by
  simp only [handle_command]
  split
  · exact h
  split
  · exact nickCmd_inv h hf
  split
  · exact msgCmd_inv h
  split
  · exact historyCmd_inv h
  split
  · exact colorCmd_inv h
  · exact h

theorem chatLine_inv {st : ServerState} {sid : Nat} {s : Session} {ts line : String}
    (h : Inv st) : Inv (chatLine st sid s ts line).1 := by
  obtain ⟨hk, hs, hm⟩ := h
  simp only [chatLine]
  split
  · exact ⟨hk, hs, hm⟩
  · exact ⟨hk, hs, hm⟩

theorem connectClient_inv {st : ServerState} {sid : Nat} (h : Inv st)
    (hnew : sid ∉ st.sessions.map Prod.fst) : Inv (connectClient st sid).1 := by
  obtain ⟨hk, hs, hm⟩ := h
  simp only [connectClient]
  refine ⟨keys_setKey_nodup hk, ?_, ?_⟩
  · show ((st.sessions ++ [(sid, (⟨"Guest", false⟩ : Session))]).map Prod.fst).Nodup
    rw [List.map_append]
    exact List.nodup_append.2 ⟨hs, List.nodup_singleton _, by
      simpa [List.disjoint_singleton] using hnew⟩
  intro p hp
  rcases mem_setKey hp with hpe | hp2
  · exact ⟨(sid, (⟨"Guest", false⟩ : Session)), by simp, by rw [hpe], by rw [hpe]⟩
  · obtain ⟨q, hq, h1, h2⟩ := hm p hp2
    exact ⟨q, List.mem_append_left _ hq, h1, h2⟩

theorem disconnectClient_inv {st : ServerState} {sid : Nat} {s : Session}
    (h : Inv st) (hf : findSession sid st.sessions = some s) :
    Inv (disconnectClient st sid s).1 := by
  obtain ⟨hk, hs, hm⟩ := h
  have hmem : (sid, s) ∈ st.sessions := findSession_mem hf
  refine ⟨keys_popKey_nodup hk, ?_, ?_⟩
  · show (((st.sessions.filter (fun q => q.1 ≠ sid)).map Prod.fst)).Nodup
    exact List.Nodup.sublist ((List.filter_sublist st.sessions).map Prod.fst) hs
  intro p hp
  obtain ⟨hp2, hpne⟩ := mem_popKey.1 hp
  obtain ⟨q, hq, h1, h2⟩ := hm p hp2
  have hqsid : q.1 ≠ sid := by
    intro he
    have hq' : (sid, q.2) ∈ st.sessions := by rw [← he]; exact hq
    exact hpne (by rw [h2, nodup_keys_eq hs hq' hmem])
  exact ⟨q, List.mem_filter.2 ⟨hq, by simpa using hqsid⟩, h1, h2⟩

theorem step_inv {st : ServerState} (h : Inv st) (e : Event) : Inv (step st e).1 := by
  cases e with
  | connect sid =>
    simp only [step]
    split
    · exact h
    · next hg =>
      refine connectClient_inv h ?_
      intro hmem
      exact hg (by simpa [List.any_eq_true, List.mem_map] using hmem)
  | line sid ts raw =>
    cases hf : findSession sid st.sessions with
    | none => simpa only [step, hf] using h
    | some s =>
      simp only [step, hf]
      split
      · exact h
      split
      · exact handle_command_inv h hf
      · exact chatLine_inv h
  | disconnect sid =>
    cases hf : findSession sid st.sessions with
    | none => simpa only [step, hf] using h
    | some s =>
      simp only [step, hf]
      exact disconnectClient_inv h hf

theorem initState_inv : Inv initState := by
  refine ⟨List.nodup_nil, List.nodup_nil, ?_⟩
  intro p hp
  cases hp

theorem runTrace_inv (tr : List Event) : Inv (runTrace tr) := by
  suffices h : ∀ st, Inv st → Inv (tr.foldl (fun st e => (step st e).1) st) from
    h initState initState_inv
  intro st h
  induction tr generalizing st with
  | nil => exact h
  | cons e tr ih => exact ih _ (step_inv h e)

/-! ## Claims -/

/-- C1 (amended): along every trace of connect, command (including /nick
rename) and disconnect events, the registry keys are pairwise distinct and
every registry entry maps its key to a currently-connected session whose
case-folded nickname equals that key.  The entry set can however be a
proper subset of the connected sessions: connect-time registration of an
already-present key silently replaces the existing entry instead of
failing with AlreadyTaken (only the /nick path refuses a taken key), as
the counterexample shows. -/
theorem c1_registry_invariant (tr : List Event) : Inv (runTrace tr) :=
  runTrace_inv tr

/-- C1 counterexample: two connects both register the default nickname
`Guest`; the second assignment replaces the first session's entry instead
of failing with AlreadyTaken, leaving a single registry entry (pointing at
session 1) while two sessions are connected — so the entry set does not
equal the connected-session set. -/
theorem c1_counterexample :
    (runTrace [Event.connect 0, Event.connect 1]).users = [(("guest"), 1)] ∧
    (runTrace [Event.connect 0, Event.connect 1]).sessions.map Prod.fst = [0, 1] := by
  decide

/-- C2 (amended): whenever a /nick request names a nickname whose
case-folded key is present in the registry and differs from the requesting
session's own current case-folded nickname, the command answers a single
`Nickname already in use` line to the requester and the entire server
state — both sessions' registry entries and nicknames included — stays
unchanged.  (The original claim, quantified over any key held by a
different session, fails in the reachable two-Guest state where a
different session holds the requester's own key; see the
counterexample.) -/
theorem c2_rename_conflict_fails (st : ServerState) (sid : Nat) (s : Session)
    (args : String) (hargs : args ≠ "")
    (hvalid : nickRejected ((firstToken args).take 24) = false)
    (htaken : hasKey (pyLower (String.mk ((firstToken args).take 24))) st.users = true)
    (hdiff : pyLower (String.mk ((firstToken args).take 24)) ≠ pyLower s.nick) :
    nickCmd st sid s args = (st, [OutEvent.direct sid ("Nickname already in use")]) := by
  simp [nickCmd, hargs, hvalid, htaken, hdiff]

/-- C2 witness: a concrete conflicting rename (`Alice` requesting `Bob`
while `bob` is registered to another session) is refused with the
already-in-use response and changes nothing. -/
theorem c2_witness :
    ("Bob" : String) ≠ "" ∧
    nickCmd ⟨[(("bob"), 1)], [(0, ⟨("Alice"), false⟩), (1, ⟨("Bob"), true⟩)], []⟩
        0 ⟨("Alice"), false⟩ ("Bob") =
      (⟨[(("bob"), 1)], [(0, ⟨("Alice"), false⟩), (1, ⟨("Bob"), true⟩)], []⟩,
       [OutEvent.direct 0 ("Nickname already in use")]) :=
  ⟨by decide,
   c2_rename_conflict_fails _ 0 _ ("Bob") (by decide) (by decide) (by decide) (by decide)⟩

/-- C2 counterexample: in the reachable two-Guest state the key `guest` is
held by session 1 while session 0 also has nickname `Guest`; session 0
then issues `/nick guest` — a nickname whose case-folded key is held by a
different session — yet the rename succeeds and replaces session 1's
registry entry with session 0's instead of failing and leaving both
sessions' entries unchanged. -/
theorem c2_counterexample :
    (runTrace [Event.connect 0, Event.connect 1]).users = [(("guest"), 1)] ∧
    findSession 0 (runTrace [Event.connect 0, Event.connect 1]).sessions =
      some (⟨("Guest"), false⟩ : Session) ∧
    (runTrace [Event.connect 0, Event.connect 1,
        Event.line 0 ("2024-01-01 10:00:00") ("/nick guest")]).users = [(("guest"), 0)] := by
  decide

/-- Broadcast with a truthy skip nick delivers exactly to the non-skipped
entries whose channel accepts the write, each rendered through its own
color flag, in snapshot order. -/
theorem broadcast_some_eq (users : List (String × RUser)) (message : String)
    (a : String) (ha : a ≠ "") :
    broadcast users message (some a) =
      (users.filter (fun p => p.1 ≠ pyLower a && p.2.writeOk)).map
        (fun p => (p.1, apply_color p.2 message)) := by
  induction users with
  | nil => rfl
  | cons p l ih =>
    have hd : decide (a = "") = false := decide_eq_false ha
    simp only [broadcast, List.filterMap_cons, List.filter_cons, hd, Bool.not_false,
      Bool.true_and] at ih ⊢
    simp only [decide_eq_true_eq] at ih
    by_cases h1 : p.1 = pyLower a <;> by_cases h2 : p.2.writeOk = true <;>
      simp [h1, h2, ih]

/-- C3: for every message and nonempty skip key, broadcast writes the
per-recipient rendered text to exactly the snapshot entries whose key
differs from the case-folded skip key and whose channel accepts writes;
the skipped key receives nothing; a recipient whose write fails is only
omitted itself (the bare except swallows the error, the loop never touches
the registry, and iteration continues), so every other registered
recipient with a working channel still receives the message; the loop body
is total, so the operation as a whole never fails. -/
theorem c3_broadcast_skip (users : List (String × RUser)) (message : String)
    (a : String) (ha : a ≠ "") :
    (broadcast users message (some a) =
      (users.filter (fun p => p.1 ≠ pyLower a && p.2.writeOk)).map
        (fun p => (p.1, apply_color p.2 message))) ∧
    (pyLower a ∉ (broadcast users message (some a)).map Prod.fst) ∧
    (∀ p ∈ users, p.1 ≠ pyLower a → p.2.writeOk = true →
      (p.1, apply_color p.2 message) ∈ broadcast users message (some a)) := by
  refine ⟨broadcast_some_eq users message a ha, ?_, ?_⟩
  · intro hmem
    rw [broadcast_some_eq users message a ha, List.map_map] at hmem
    obtain ⟨p, hp, he⟩ := List.mem_map.1 hmem
    have hc := (List.mem_filter.1 hp).2
    simp only [Bool.and_eq_true, bne_iff_ne, ne_eq, decide_eq_true_eq] at hc
    exact absurd (by simpa using he) (by simpa using hc.1)
  · intro p hp h1 h2
    rw [broadcast_some_eq users message a ha]
    exact List.mem_map_of_mem _ (List.mem_filter.2 ⟨hp, by simp [h1, h2]⟩)

/-- C3 witness: a concrete broadcast over three registered recipients —
one matching the skip key, one with a broken channel — delivers exactly to
the remaining recipient and never to the skipped key. -/
theorem c3_witness :
    ("Alice" : String) ≠ "" ∧
    pyLower ("Alice") ∉
      (broadcast [(("alice"), ⟨false, true⟩), (("bob"), ⟨false, false⟩),
        (("carol"), ⟨false, true⟩)] ("<hi>") (some ("Alice"))).map Prod.fst ∧
    broadcast [(("alice"), ⟨false, true⟩), (("bob"), ⟨false, false⟩),
        (("carol"), ⟨false, true⟩)] ("<hi>") (some ("Alice")) = [(("carol"), ("<hi>"))] :=
  ⟨by decide,
   (c3_broadcast_skip [(("alice"), ⟨false, true⟩), (("bob"), ⟨false, false⟩),
     (("carol"), ⟨false, true⟩)] ("<hi>") ("Alice") (by decide)).2.1,
   by decide⟩

/-- C4 (code bug): the validation guard of line 123 only rejects a name
that is non-alphanumeric AND free of underscores AND free of hyphens, so
the name `a!_` — which contains the character `!`, outside the documented
alphanumeric/underscore/hyphen alphabet — passes validation, and the
session is renamed and re-registered under it instead of receiving the
invalid-characters response. -/
theorem c4_invalid_nick_accepted :
    (('!') ∈ ("a!_").data ∧ ('!').isAlphanum = false ∧ ('!') ≠ '_' ∧ ('!') ≠ '-') ∧
    nickRejected (("a!_").data) = false ∧
    nickCmd ⟨[(("guest"), 0)], [(0, ⟨("Guest"), false⟩)], []⟩ 0 ⟨("Guest"), false⟩ ("a!_") =
      (⟨[(("a!_"), 0)], [(0, ⟨("a!_"), false⟩)], []⟩,
       [OutEvent.chanBroadcast ("* Guest is now known as a!_") none,
        OutEvent.direct 0 ("You are now a!_")]) := by
  decide

/-- Taking the last `n` elements via reverse-take-reverse yields a suffix
of the original list (hence preserves insertion order). -/
theorem reverse_take_reverse_suffix {α : Type} (l : List α) (n : Nat) :
    (l.reverse.take n).reverse <:+ l := by
  have h : (l.reverse.take n).reverse <:+ l.reverse.reverse :=
    List.reverse_suffix.2 (List.take_prefix _ _)
  simpa using h

/-- C5 (amended): the limit is the argument clamped to 300 only when the
whole stripped argument consists of digits; otherwise — in particular
whenever the argument contains a space, which is always the case for the
dm form `/history n dm` — it silently falls back to 10, so an explicit dm
count is ignored.  Both queries return at most `limit` rows, and the
rendered rows are a suffix of the matching history in insertion
(chronological) order even though they are retrieved reverse-chronologically
and re-reversed internally. -/
theorem c5_history_limit_order :
    (∀ args : String, pyIsDigit (pyStrip args) = true →
      historyLimit args = min (digitsToNat (pyStrip args)) 300) ∧
    (∀ args : String, pyIsDigit (pyStrip args) = false → historyLimit args = 10) ∧
    (∀ args : String, (' ') ∈ (pyStrip args).data → historyLimit args = 10) ∧
    (∀ (hist : List Msg) (limit : Nat),
      (queryPublic hist limit).length ≤ limit ∧
      queryPublic hist limit <:+ hist.filter (fun m => m.to_nick = none)) ∧
    (∀ (hist : List Msg) (nick : String) (limit : Nat),
      (queryDM hist nick limit).length ≤ limit ∧
      queryDM hist nick limit <:+
        hist.filter (fun m => m.from_nick = nick || m.to_nick = some nick)) := by
  have h10 : ∀ args : String, pyIsDigit (pyStrip args) = false → historyLimit args = 10 := by
    intro args h
    simp [historyLimit, h]
  refine ⟨?_, h10, ?_, ?_, ?_⟩
  · intro args h
    simp [historyLimit, h]
  · intro args hsp
    refine h10 args ?_
    have hall : (pyStrip args).data.all Char.isDigit = false := by
      by_contra hc
      rw [Bool.not_eq_false] at hc
      exact absurd (List.all_eq_true.1 hc _ hsp) (by decide)
    simp [pyIsDigit, hall]
  · intro hist limit
    constructor
    · simp only [queryPublic, List.length_reverse, List.length_take]
      exact Nat.min_le_left _ _
    · exact reverse_take_reverse_suffix _ _
  · intro hist nick limit
    constructor
    · simp only [queryDM, List.length_reverse, List.length_take]
      exact Nat.min_le_left _ _
    · exact reverse_take_reverse_suffix _ _

/-- C5 witness: `/history 50` clamps the digit argument, while the dm form
`/history 50 dm` contains a space and falls back to the default. -/
theorem c5_witness :
    pyIsDigit (pyStrip ("50")) = true ∧
    historyLimit ("50") = min (digitsToNat (pyStrip ("50"))) 300 ∧
    (' ') ∈ (pyStrip ("50 dm")).data ∧
    historyLimit ("50 dm") = 10 :=
  ⟨by decide, c5_history_limit_order.1 ("50") (by decide), by decide,
   c5_history_limit_order.2.2.1 ("50 dm") (by decide)⟩

/-- C5 counterexample: for `/history 50 dm` the effective limit is 10, not
the claimed clamp of the given argument (min 50 300 = 50): with 12
qualifying dm rows in history the query returns only 10 of them. -/
theorem c5_counterexample :
    historyLimit ("50 dm") = 10 ∧
    (10 : Nat) ≠ min 50 300 ∧
    (queryDM (List.replicate 12 ⟨("Guest"), some ("Bob"), ("hi"), ("2024-01-01 10:00:00")⟩)
      ("Guest") (historyLimit ("50 dm"))).length = 10 := by
  decide

/-- C6 (amended): `send_to` has no return statement, so its Python return
value is None in every case — not a boolean; when no session holds the
case-folded key it performs no write at all, and when one does it attempts
exactly one write to that session, swallowing a write failure (so a broken
channel merely drops the write). -/
theorem c6_send_to_none (users : List (String × RUser)) (nick message : String) :
    ((send_to users nick message).ret = none) ∧
    (send_to.lookupRUser (pyLower nick) users = none →
      (send_to users nick message).writes = []) ∧
    (∀ u : RUser, send_to.lookupRUser (pyLower nick) users = some u →
      (send_to users nick message).writes =
        if u.writeOk then [(pyLower nick, apply_color u message)] else []) := by
  refine ⟨?_, ?_, ?_⟩
  · cases h : send_to.lookupRUser (pyLower nick) users <;> simp [send_to, h]
  · intro h
    simp [send_to, h]
  · intro u h
    simp [send_to, h]

/-- C6 witness: a lookup miss performs no writes. -/
theorem c6_witness :
    send_to.lookupRUser (pyLower ("bob")) [(("alice"), ⟨false, true⟩)] = none ∧
    (send_to [(("alice"), ⟨false, true⟩)] ("bob") ("hi")).writes = [] :=
  ⟨by decide,
   (c6_send_to_none [(("alice"), ⟨false, true⟩)] ("bob") ("hi")).2.1 (by decide)⟩

/-- C6 counterexample: with `alice` registered, `send_to` does find the
recipient and write to it, yet its return value is still `none` (Python
None), not the claimed `true`; and on a miss it is likewise `none`, not
`false`. -/
theorem c6_counterexample :
    (send_to [(("alice"), ⟨false, true⟩)] ("alice") ("hi")).writes = [(("alice"), ("hi"))] ∧
    (send_to [(("alice"), ⟨false, true⟩)] ("alice") ("hi")).ret ≠ some true ∧
    (send_to [(("alice"), ⟨false, true⟩)] ("bob") ("hi")).ret ≠ some false := by
  decide

/-- C7: a non-command chat line of exactly 400 characters is accepted —
broadcast to everyone except the sender, timestamped and nickname-tagged,
and appended to public history — while a line of 401 or more characters
produces exactly one length-error line to the sender, no broadcast event,
and no history append. -/
theorem c7_chat_length (st : ServerState) (sid : Nat) (s : Session) (ts line : String) :
    (line.length = 400 →
      chatLine st sid s ts line =
        ({ st with history := st.history ++ [⟨s.nick, none, line, ts⟩] },
         [OutEvent.chanBroadcast ("[" ++ tsHM ts ++ "] <" ++ s.nick ++ "> " ++ line)
           (some s.nick)])) ∧
    (line.length ≥ 401 →
      chatLine st sid s ts line =
        (st, [OutEvent.direct sid ("Message too long (max ~400 chars)")])) := by
  constructor
  · intro h
    simp [chatLine, h]
  · intro h
    simp [chatLine, show line.length > 400 by omega]

/-- C7 witness: the boundary lines of 400 and 401 repeated characters. -/
theorem c7_witness :
    (String.mk (List.replicate 400 'a')).length = 400 ∧
    (String.mk (List.replicate 401 'a')).length ≥ 401 ∧
    chatLine initState 0 ⟨("Guest"), false⟩ ("2024-01-01 10:00:00")
        (String.mk (List.replicate 401 'a')) =
      (initState, [OutEvent.direct 0 ("Message too long (max ~400 chars)")]) ∧
    chatLine initState 0 ⟨("Guest"), false⟩ ("2024-01-01 10:00:00")
        (String.mk (List.replicate 400 'a')) =
      ({ initState with history :=
          [⟨("Guest"), none, String.mk (List.replicate 400 'a'), ("2024-01-01 10:00:00")⟩] },
       [OutEvent.chanBroadcast ("[" ++ tsHM ("2024-01-01 10:00:00") ++ "] <Guest> "
          ++ String.mk (List.replicate 400 'a')) (some ("Guest"))]) :=
  ⟨List.length_replicate 400 'a', ge_of_eq (List.length_replicate 401 'a'),
   (c7_chat_length initState 0 ⟨("Guest"), false⟩ ("2024-01-01 10:00:00")
     (String.mk (List.replicate 401 'a'))).2 (ge_of_eq (List.length_replicate 401 'a')),
   (c7_chat_length initState 0 ⟨("Guest"), false⟩ ("2024-01-01 10:00:00")
     (String.mk (List.replicate 400 'a'))).1 (List.length_replicate 400 'a')⟩

/-- C8 (amended): rendering is the identity whenever the session's color
flag is off; when it is on, the result equals the sequential application
of the six fixed substitutions in the source order <, >, [, ], →, ← — but
that substitution set is NOT order-independent: the inserted ANSI escapes
themselves contain `[`, which the later `[` substitution rewrites, so the
output depends on the application order (see the counterexample). -/
theorem c8_render (u : RUser) (text : String) :
    (u.colors_enabled = false → apply_color u text = text) ∧
    (u.colors_enabled = true →
      apply_color u text = String.mk (applySubs colorSubs text.data)) := by
  constructor
  · intro h
    simp [apply_color, h]
  · intro h
    show (if !u.colors_enabled then text else String.mk (colorChain text.data)) = _
    rw [h]
    rfl

/-- C8 witness: with colors on, rendering `<x>` equals the sequential
substitution chain. -/
theorem c8_witness :
    ((⟨true, true⟩ : RUser).colors_enabled = true) ∧
    apply_color ⟨true, true⟩ ("<x>") = String.mk (applySubs colorSubs (("<x>").data)) :=
  ⟨rfl, (c8_render ⟨true, true⟩ ("<x>")).2 rfl⟩

/-- C8 counterexample: applying the same six substitutions in the source
order versus the reverse order disagrees already on the input `<`, so the
substitution set is not order-independent. -/
theorem c8_counterexample :
    applySubs colorSubs (("<").data) ≠ applySubs colorSubs.reverse (("<").data) := by
  decide

/-- C9: an input line whose extracted verb is none of help, nick, msg, dm,
history, color — including the advertised but unhandled `quit` — produces
no output to any session and leaves the whole server state (registry,
session fields, history) unchanged. -/
theorem c9_unknown_verb_ignored (st : ServerState) (sid : Nat) (s : Session)
    (ts line : String)
    (h : cmdOf (splitOnce (pyStrip line).data).1 ∉
      (["help", "nick", "msg", "dm", "history", "color"] : List String)) :
    handle_command st sid s ts line = (st, []) := by
  simp only [List.mem_cons, List.not_mem_nil, or_false, not_or] at h
  obtain ⟨h1, h2, h3, h4, h5, h6⟩ := h
  simp [handle_command, h1, h2, h3, h4, h5, h6]

/-- C9 witness: `/quit` is silently ignored. -/
theorem c9_witness :
    (cmdOf (splitOnce (pyStrip ("/quit")).data).1 ∉
      (["help", "nick", "msg", "dm", "history", "color"] : List String)) ∧
    handle_command ⟨[(("guest"), 0)], [(0, ⟨("Guest"), false⟩)], []⟩ 0 ⟨("Guest"), false⟩
        ("2024-01-01 10:00:00") ("/quit") =
      (⟨[(("guest"), 0)], [(0, ⟨("Guest"), false⟩)], []⟩, []) :=
  ⟨by decide,
   c9_unknown_verb_ignored ⟨[(("guest"), 0)], [(0, ⟨("Guest"), false⟩)], []⟩ 0
     ⟨("Guest"), false⟩ ("2024-01-01 10:00:00") ("/quit") (by decide)⟩

/-- C10: when the first whitespace token of the /nick argument is longer
than 24 characters there is no length rejection: the token is truncated to
its first 24 characters before validation and registration, and whenever
the truncation passes the validation guard and its key is free (or is the
session's own), the session is silently renamed to the truncation, with
the usual rename notices and no error. -/
theorem c10_nick_truncated (st : ServerState) (sid : Nat) (s : Session) (args : String)
    (hlen : 24 < (firstToken args).length)
    (hvalid : nickRejected ((firstToken args).take 24) = false)
    (hfree : (hasKey (pyLower (String.mk ((firstToken args).take 24))) st.users &&
      decide (pyLower (String.mk ((firstToken args).take 24)) ≠ pyLower s.nick)) = false) :
    ((firstToken args).take 24).length = 24 ∧
    nickCmd st sid s args =
      ({ st with
          users := setKey (pyLower (String.mk ((firstToken args).take 24))) sid
            (popKey (pyLower s.nick) st.users),
          sessions := setNick st.sessions sid (String.mk ((firstToken args).take 24)) },
       [OutEvent.chanBroadcast ("* " ++ s.nick ++ " is now known as "
          ++ String.mk ((firstToken args).take 24)) none,
        OutEvent.direct sid ("You are now " ++ String.mk ((firstToken args).take 24))]) := by
  have hargs : args ≠ "" := fun he => absurd (he ▸ hlen) (by decide)
  constructor
  · rw [List.length_take]
    omega
  · simp [nickCmd, hargs, hvalid, hfree]
    intro hA
    rw [hA, Bool.true_and] at hfree
    simpa using hfree

/-- C10 witness: a 30-character token is truncated to 24 characters and
accepted. -/
theorem c10_witness :
    24 < (firstToken (String.mk (List.replicate 30 'x'))).length ∧
    ((firstToken (String.mk (List.replicate 30 'x'))).take 24).length = 24 :=
  ⟨by decide,
   (c10_nick_truncated ⟨[(("guest"), 0)], [(0, ⟨("Guest"), false⟩)], []⟩ 0
     ⟨("Guest"), false⟩ (String.mk (List.replicate 30 'x'))
     (by decide) (by decide) (by decide)).1⟩

end ChatSrv
